import Mathlib

/-!
Verification of the FingerReader serial protocol library.

The development embeds the Python sources shallowly:

* `send_data` / `read_data` model `FingerReader._send_data` and
  `FingerReader._read_data`: the byte-level frame encoder and the fueled
  stream decoder.  A received fragment is an `Option Nat`: `some b` is a
  one-byte read, `none` is the empty fragment a zero-byte (timed-out)
  `serial.read()` appends to the buffer.
* Python's dynamically typed expressions on those fragments are modelled by
  `py_add` / `shift_or`, which return `Except Unit _` — `.error ()` stands
  for the `TypeError` Python raises when an empty `bytes` meets an `int`.
* `FingerReader.read` / `register` and the other workflow methods are
  modelled at the exchange level over an explicit device-response script.
-/

/-- A fragment appended to `received_data`: `some b` for a one-byte read,
`none` for the empty `bytes` returned by a zero-byte read. -/
abbrev Frag := Option Nat

/-- `_shift_right`: `x >> y & 0xFF`. -/
def shift_right (x y : Nat) : Nat := (x >>> y) % 256

/-- `_shift_left`: `x << y`. -/
def shift_left (x y : Nat) : Nat := x <<< y

/-- `_send_data`: the exact byte sequence written to the serial port for a
packet of type `data_type` with the given payload, to the given address.
`_pack_bytes` (struct.pack 'B') is the identity on values below 256. -/
def send_data (address data_type : Nat) (payload : List Nat) : List Nat :=
  let packet_length := payload.length + 2
  let packet_checksum :=
    data_type + shift_right packet_length 8 + shift_right packet_length 0 + payload.sum
  [shift_right 0xEF01 8, shift_right 0xEF01 0,
   shift_right address 24, shift_right address 16, shift_right address 8, shift_right address 0,
   data_type,
   shift_right packet_length 8, shift_right packet_length 0]
  ++ payload
  ++ [shift_right packet_checksum 8, shift_right packet_checksum 0]

/-- `received_data[i]` for a stream of fragments; reads past the end of the
scripted stream are further zero-byte reads. -/
def frag (s : List Frag) (i : Nat) : Frag := s.getD i none

/-- Lift a byte list into a fragment stream with no zero-byte reads. -/
def toFrags (l : List Nat) : List Frag := l.map some

/-- Python `x + y` on the dynamic values found in `received_data`:
`int + int` adds, `bytes + bytes` concatenates (empty stays empty), and a
mix raises `TypeError` (`.error ()`). -/
def py_add (x : Except Unit Frag) (y : Frag) : Except Unit Frag :=
  match x, y with
  | .error e, _ => .error e
  | .ok (some a), some b => .ok (some (a + b))
  | .ok none, none => .ok none
  | .ok (some _), none => .error ()
  | .ok none, some _ => .error ()

/-- Python `self._shift_left(x, 8) or self._shift_left(y, 0)` on fragments:
shifting the empty `bytes` raises `TypeError`, and `or` returns its left
operand when it is truthy (nonzero), else its right operand. -/
def shift_or (x y : Frag) : Except Unit Nat :=
  match x with
  | none => .error ()
  | some a =>
    if shift_left a 8 ≠ 0 then .ok (shift_left a 8)
    else match y with
      | none => .error ()
      | some b => .ok (shift_left b 0)

/-- Python `received_checksum != packet_checksum` where the left side is an
`int` and the right side may be the empty `bytes` (always unequal then). -/
def py_ne (r : Nat) (p : Frag) : Bool :=
  match p with
  | some v => decide (r ≠ v)
  | none => true

/-- `_check_packet_header`: `received_data[0]` and `received_data[1]` must
equal the two start-bit bytes (an empty fragment compares unequal). -/
def check_packet_header (s : List Frag) : Bool :=
  decide (frag s 0 = some (shift_right 0xEF01 8)) &&
  decide (frag s 1 = some (shift_right 0xEF01 0))

/-- Outcome of `_read_data`.  `typeFault` is a Python `TypeError` escaping
from arithmetic on an empty fragment; `outOfFuel` marks an execution that
did not finish within the given number of loop iterations. -/
inductive ReadResult where
  | ok (data_type : Frag) (payload : List Frag)
  | invalidPacket
  | corruptedPacket
  | typeFault
  | outOfFuel
  deriving DecidableEq, Repr

/-- The body of `_read_data` once `_counter` has reached `packet_payload_length + 9`:
recompute the checksum over type, length and payload bytes and compare it
with the trailing checksum bytes. -/
def parse_packet (s : List Frag) (counter plen : Nat) : ReadResult :=
  let data_type := frag s 6
  let idxs := List.range' 9 (plen - 2)
  let checksum :=
    idxs.foldl (fun acc i => py_add acc (frag s i))
      (py_add (py_add (Except.ok data_type) (frag s 7)) (frag s 8))
  match checksum with
  | .error _ => .typeFault
  | .ok packet_checksum =>
    match shift_or (frag s (counter - 2)) (frag s (counter - 1)) with
    | .error _ => .typeFault
    | .ok received_checksum =>
      if py_ne received_checksum packet_checksum then .corruptedPacket
      else .ok data_type (idxs.map (frag s))

/-- The `while True` loop of `_read_data`: read one fragment per iteration,
then, once twelve fragments are in, check the header, compute the payload
length and either keep reading or parse the completed packet. -/
def read_data_loop (s : List Frag) (counter fuel : Nat) : ReadResult :=
  match fuel with
  | 0 => .outOfFuel
  | fuel + 1 =>
    let c := counter + 1
    if c < 12 then read_data_loop s c fuel
    else if !check_packet_header s then .invalidPacket
    else match shift_or (frag s 7) (frag s 8) with
      | .error _ => .typeFault
      | .ok plen =>
        if c < plen + 9 then read_data_loop s c fuel
        else parse_packet s c plen

/-- `_read_data` over a scripted fragment stream. -/
def read_data (s : List Frag) (fuel : Nat) : ReadResult :=
  read_data_loop s 0 fuel

/-- Python `x or y` on two `int`s: `x` when it is truthy (nonzero), else `y`. -/
def py_or (x y : Nat) : Nat := if x ≠ 0 then x else y

/-- A fully received frame as `_read_data` sees it: start bytes, four address
fragments (never consulted by the decoder), packet type `t`, length bytes
`0`/`l1`, payload bytes, checksum bytes `c0`/`c1`. -/
def frameFrags (a2 a3 a4 a5 : Frag) (t l1 : Nat) (p : List Nat) (c0 c1 : Nat) : List Frag :=
  [some 0xEF, some 0x01, a2, a3, a4, a5, some t, some 0, some l1]
  ++ p.map some
  ++ [some c0, some c1]

/-- `_search_template`'s result extraction on a SUCCESS ACK payload:
`template_pos` from payload bytes 1–2 and `score` from payload bytes 3–4,
each combined with Python `or` of the two shifted bytes. -/
def search_template_result (payload : List Nat) : Nat × Nat :=
  (py_or (shift_left (payload.getD 1 0) 8) (shift_left (payload.getD 2 0) 0),
   py_or (shift_left (payload.getD 3 0) 8) (shift_left (payload.getD 4 0) 0))

/-- `count_fingers`' result extraction on a SUCCESS ACK payload:
the template count from payload bytes 1–2, combined with Python `or`. -/
def count_fingers_result (payload : List Nat) : Nat :=
  py_or (shift_left (payload.getD 1 0) 8) (shift_left (payload.getD 2 0) 0)

/-- `SensorStatus` from `enums.py`. -/
inductive SensorStatus where
  | FREE
  | BUSY
  deriving DecidableEq, Repr

/-- The exception classes of `exceptions.py` that the workflow methods can
raise. -/
inductive PyExc where
  | invalidPacket
  | corruptedPacket
  | communicationError
  | noFingerFound
  | readImageError
  | messyImageError
  | fewFeaturePointsError
  | invalidImageError
  | unknownError
  | noTemplateFound
  | fingerNotFound
  | readInputError
  | fingerExists
  | characteristicsMismatchError
  | invalidPosition
  | flashError
  | deleteTemplateError
  | noAvailablePositionFound
  | sensorIsBusy
  | killSignal
  deriving DecidableEq, Repr

/-- Ghost observation log of a run: sensor-mode transitions performed via
`set_status` and command codes of request/response exchanges with the
device. -/
inductive Ev where
  | setStatus (s : SensorStatus)
  | cmd (c : Nat)
  deriving DecidableEq, Repr

/-- State of a workflow run: the scripted device (response to the `n`-th
exchange, as the `(data_type, payload)` pair `_read_data` would return),
the exchange counter `now` (also the model clock: each serial exchange
takes one time unit, `get_current_timestamp` reads `now`), the global
`kill_read_finger` flag, the global sensor status, and the ghost event
trace. -/
structure MState where
  responses : Nat → Nat × List Nat
  now : Nat
  kill : Bool
  status : SensorStatus
  trace : List Ev

namespace FingerReader

/-- One request/response exchange: `_send_data` of the command with code `c`
followed by `_read_data`, against the scripted device. -/
def exchange (c : Nat) (st : MState) : (Nat × List Nat) × MState :=
  (st.responses st.now,
    { st with now := st.now + 1, trace := st.trace ++ [Ev.cmd c] })

/-- The response classification of `_scan`: the if/elif chain over the ACK
data type and the first payload byte. -/
def scan_ack (r : Nat × List Nat) : Except PyExc Unit :=
  if r.1 ≠ 0x07 then .error .invalidPacket
  else if r.2.getD 0 0 = 0x00 then .ok ()
  else if r.2.getD 0 0 = 0x02 then .error .noFingerFound
  else if r.2.getD 0 0 = 0x01 then .error .communicationError
  else if r.2.getD 0 0 = 0x03 then .error .readImageError
  else .error .unknownError

/-- `_scan`: send the SCAN command (0x01) and classify the response. -/
def scan (st : MState) : Except PyExc Unit × MState :=
  let p := exchange 0x01 st
  (scan_ack p.1, p.2)

/-- The response classification of `_buffer_image`. -/
def buffer_image_ack (r : Nat × List Nat) : Except PyExc Unit :=
  if r.1 ≠ 0x07 then .error .invalidPacket
  else if r.2.getD 0 0 = 0x00 then .ok ()
  else if r.2.getD 0 0 = 0x01 then .error .communicationError
  else if r.2.getD 0 0 = 0x06 then .error .messyImageError
  else if r.2.getD 0 0 = 0x07 then .error .fewFeaturePointsError
  else if r.2.getD 0 0 = 0x15 then .error .invalidImageError
  else .error .unknownError

/-- `_buffer_image`: send the BUFFER_IMAGE command (0x02) with the given
char buffer and classify the response. -/
def buffer_image (char_buffer : Nat) (st : MState) : Except PyExc Unit × MState :=
  let p := exchange 0x02 st
  (buffer_image_ack p.1, p.2)

/-- The response classification of `_search_template`; on SUCCESS the
position and score come from `search_template_result`. -/
def search_template_ack (r : Nat × List Nat) : Except PyExc (Nat × Nat) :=
  if r.1 ≠ 0x07 then .error .invalidPacket
  else if r.2.getD 0 0 = 0x00 then .ok (search_template_result r.2)
  else if r.2.getD 0 0 = 0x09 then .error .noTemplateFound
  else if r.2.getD 0 0 = 0x01 then .error .communicationError
  else .error .unknownError

/-- `_search_template`: send the SEARCH_TEMPLATE command (0x04) and classify
the response. -/
def search_template (st : MState) : Except PyExc (Nat × Nat) × MState :=
  let p := exchange 0x04 st
  (search_template_ack p.1, p.2)

/-- The response classification of `count_fingers`; on SUCCESS the count
comes from `count_fingers_result`. -/
def count_fingers_ack (r : Nat × List Nat) : Except PyExc Nat :=
  if r.1 ≠ 0x07 then .error .invalidPacket
  else if r.2.getD 0 0 = 0x00 then .ok (count_fingers_result r.2)
  else if r.2.getD 0 0 = 0x01 then .error .communicationError
  else .error .unknownError

/-- `count_fingers`: send the COUNT_TEMPLATES command (0x1D) and classify
the response. -/
def count_fingers (st : MState) : Except PyExc Nat × MState :=
  let p := exchange 0x1D st
  (count_fingers_ack p.1, p.2)

/-- The response classification of `_create_template`. -/
def create_template_ack (r : Nat × List Nat) : Except PyExc Unit :=
  if r.1 ≠ 0x07 then .error .invalidPacket
  else if r.2.getD 0 0 = 0x00 then .ok ()
  else if r.2.getD 0 0 = 0x01 then .error .communicationError
  else if r.2.getD 0 0 = 0x0A then .error .characteristicsMismatchError
  else .error .unknownError

/-- `_create_template`: send the CREATE_TEMPLATE command (0x05) and classify
the response. -/
def create_template (st : MState) : Except PyExc Unit × MState :=
  let p := exchange 0x05 st
  (create_template_ack p.1, p.2)

/-- The response classification of `_store_template`; on SUCCESS the stored
position is returned. -/
def store_template_ack (position : Nat) (r : Nat × List Nat) : Except PyExc Nat :=
  if r.1 ≠ 0x07 then .error .invalidPacket
  else if r.2.getD 0 0 = 0x00 then .ok position
  else if r.2.getD 0 0 = 0x01 then .error .communicationError
  else if r.2.getD 0 0 = 0x0B then .error .invalidPosition
  else if r.2.getD 0 0 = 0x18 then .error .flashError
  else .error .unknownError

/-- `_store_template`: send the STORE_TEMPLATE command (0x06) for the given
position and char buffer and classify the response. -/
def store_template (position char_buffer : Nat) (st : MState) : Except PyExc Nat × MState :=
  let p := exchange 0x06 st
  (store_template_ack position p.1, p.2)

/-- `set_status`: write the sensor mode into the global state (logged in the
ghost trace). -/
def set_status (s : SensorStatus) (st : MState) : MState :=
  { st with status := s, trace := st.trace ++ [Ev.setStatus s] }

/-- Python `timeout and (now - start) >= timeout`: false for `None` and for
the falsy integer `0`. -/
def timeout_hit (timeout : Option Nat) (elapsed : Nat) : Bool :=
  match timeout with
  | none => false
  | some t => t ≠ 0 && elapsed ≥ t

/-- The `while True` loop of `read`: scan; on success exit via
`set_status(FREE)`; on `NoFingerFound` check the kill flag first (clear it,
free the sensor, refresh the count, raise `KillSignal`), then the timeout
(free the sensor, refresh the count, raise `NoFingerFound`), else loop; on
any other exception free the sensor and raise `ReadInputError`.  An
exception raised by `count_fingers` inside a handler replaces the one being
handled.  `none` in the first component means the loop did not exit within
`fuel` iterations. -/
def read_loop (timeout : Option Nat) (start_time : Nat) (fuel : Nat) (st : MState) :
    Option (Except PyExc Unit) × MState :=
  match fuel with
  | 0 => (none, st)
  | fuel + 1 =>
    let p := scan st
    let st1 := p.2
    match p.1 with
    | .ok _ => (some (.ok ()), set_status .FREE st1)
    | .error e =>
      if e = PyExc.noFingerFound then
        if st1.kill then
          let st2 := set_status .FREE { st1 with kill := false }
          let q := count_fingers st2
          match q.1 with
          | .ok _ => (some (.error .killSignal), q.2)
          | .error e2 => (some (.error e2), q.2)
        else if timeout_hit timeout (st1.now - start_time) then
          let st2 := set_status .FREE st1
          let q := count_fingers st2
          match q.1 with
          | .ok _ => (some (.error .noFingerFound), q.2)
          | .error e2 => (some (.error e2), q.2)
        else read_loop timeout start_time fuel st1
      else (some (.error .readInputError), set_status .FREE st1)

/-- `read`: set the sensor BUSY, record the start time, and run the
detection loop. -/
def read (timeout : Option Nat) (fuel : Nat) (st : MState) :
    Option (Except PyExc Unit) × MState :=
  let st1 := set_status .BUSY st
  read_loop timeout st1.now fuel st1

/-- `check_finger`: read, buffer into the READ char buffer, search; a
`NoTemplateFound` from the search is re-raised as `FingerNotFound`,
`NoFingerFound` is re-raised unchanged, anything else propagates. -/
def check_finger (timeout : Option Nat) (fuel : Nat) (st : MState) :
    Option (Except PyExc (Nat × Nat)) × MState :=
  match read timeout fuel st with
  | (none, st1) => (none, st1)
  | (some (.error e), st1) => (some (.error e), st1)
  | (some (.ok _), st1) =>
    match buffer_image 0x01 st1 with
    | (.error e, st2) => (some (.error e), st2)
    | (.ok _, st2) =>
      match search_template st2 with
      | (.ok ps, st3) => (some (.ok ps), st3)
      | (.error .noTemplateFound, st3) => (some (.error .fingerNotFound), st3)
      | (.error e, st3) => (some (.error e), st3)

/-- `get_available_position`: a TODO stub that just returns the template
count. -/
def get_available_position (st : MState) : Except PyExc Nat × MState :=
  count_fingers st

/-- The `except` clauses of `_store_finger`: `NoAvailablePositionFound` is
caught and only logged, so the method falls through and returns Python
`None` (`.ok none`); any other exception is re-raised. -/
def store_finger_except (e : PyExc) (st : MState) :
    Option (Except PyExc (Option Nat)) × MState :=
  if e = PyExc.noAvailablePositionFound then (some (.ok none), st)
  else (some (.error e), st)

/-- `_store_finger`: read with no timeout, buffer into the WRITE char
buffer, create the template, resolve the position (given, or the available
one), store the template; every exception goes through the `except`
clauses. -/
def store_finger (position : Option Nat) (fuel : Nat) (st : MState) :
    Option (Except PyExc (Option Nat)) × MState :=
  match read none fuel st with
  | (none, st1) => (none, st1)
  | (some (.error e), st1) => store_finger_except e st1
  | (some (.ok _), st1) =>
    match buffer_image 0x02 st1 with
    | (.error e, st2) => store_finger_except e st2
    | (.ok _, st2) =>
      match create_template st2 with
      | (.error e, st3) => store_finger_except e st3
      | (.ok _, st3) =>
        match position with
        | some pos =>
          match store_template pos 0x02 st3 with
          | (.ok stored, st4) => (some (.ok (some stored)), st4)
          | (.error e, st4) => store_finger_except e st4
        | none =>
          match get_available_position st3 with
          | (.error e, st4) => store_finger_except e st4
          | (.ok pos, st4) =>
            match store_template pos 0x02 st4 with
            | (.ok stored, st5) => (some (.ok (some stored)), st5)
            | (.error e, st5) => store_finger_except e st5

/-- `register`: refuse when the sensor is not FREE; run `check_finger`; a
normal return means the finger is already enrolled (`FingerExists`);
`NoFingerFound` is re-raised; `FingerNotFound` means the finger is new and
`_store_finger` runs; anything else propagates. -/
def register (position : Option Nat) (timeout : Option Nat) (fuel : Nat) (st : MState) :
    Option (Except PyExc (Option Nat)) × MState :=
  if st.status ≠ SensorStatus.FREE then (some (.error .sensorIsBusy), st)
  else
    match check_finger timeout fuel st with
    | (none, st1) => (none, st1)
    | (some (.ok _), st1) => (some (.error .fingerExists), st1)
    | (some (.error .noFingerFound), st1) => (some (.error .noFingerFound), st1)
    | (some (.error .fingerNotFound), st1) => store_finger position fuel st1
    | (some (.error e), st1) => (some (.error e), st1)

end FingerReader

/-- Concrete script for C7's witness: first exchange reports no finger, the
following count exchange succeeds; the kill flag is set; a 1-unit timeout
has already elapsed after the first scan. -/
def stC7 : MState :=
  ⟨fun n => if n = 0 then (0x07, [0x02]) else (0x07, [0x00, 0x00, 0x03]),
    0, true, SensorStatus.FREE, []⟩

/-- Concrete script whose every scan exchange reports no finger. -/
def stNoFinger : MState :=
  ⟨fun _ => (0x07, [0x02]), 0, false, SensorStatus.FREE, []⟩

/-- Concrete script for C5's witness: scan succeeds, buffering succeeds, the
search reports a match at position 1 with score 2. -/
def stC5 : MState :=
  ⟨fun n => if n = 0 then (0x07, [0x00]) else if n = 1 then (0x07, [0x00])
    else (0x07, [0x00, 0x00, 0x01, 0x00, 0x02]),
    0, false, SensorStatus.FREE, []⟩

/-- Concrete script for C6's witness: the first two exchanges report no
finger, the third is the count refresh. -/
def stC6 : MState :=
  ⟨fun n => if n < 2 then (0x07, [0x02]) else (0x07, [0x00, 0x00, 0x03]),
    0, false, SensorStatus.FREE, []⟩

/-- Concrete script for C4: the very first scan succeeds. -/
def stC4 : MState := ⟨fun _ => (0x07, [0x00]), 0, false, SensorStatus.FREE, []⟩

lemma shift_or_some (a b : Nat) :
    shift_or (some a) (some b) = .ok (py_or (shift_left a 8) (shift_left b 0)) := by
  by_cases h : shift_left a 8 ≠ 0 <;> simp [shift_or, py_or, h]

lemma frag_frame_zero (a2 a3 a4 a5 : Frag) (t l1 : Nat) (p : List Nat) (c0 c1 : Nat) :
    frag (frameFrags a2 a3 a4 a5 t l1 p c0 c1) 0 = some 0xEF := rfl

lemma frag_frame_one (a2 a3 a4 a5 : Frag) (t l1 : Nat) (p : List Nat) (c0 c1 : Nat) :
    frag (frameFrags a2 a3 a4 a5 t l1 p c0 c1) 1 = some 0x01 := rfl

lemma frag_frame_six (a2 a3 a4 a5 : Frag) (t l1 : Nat) (p : List Nat) (c0 c1 : Nat) :
    frag (frameFrags a2 a3 a4 a5 t l1 p c0 c1) 6 = some t := rfl

lemma frag_frame_seven (a2 a3 a4 a5 : Frag) (t l1 : Nat) (p : List Nat) (c0 c1 : Nat) :
    frag (frameFrags a2 a3 a4 a5 t l1 p c0 c1) 7 = some 0 := rfl

lemma frag_frame_eight (a2 a3 a4 a5 : Frag) (t l1 : Nat) (p : List Nat) (c0 c1 : Nat) :
    frag (frameFrags a2 a3 a4 a5 t l1 p c0 c1) 8 = some l1 := rfl

lemma frag_append_right (A B : List Frag) (i : Nat) (h : A.length ≤ i) :
    frag (A ++ B) i = frag B (i - A.length) := List.getD_append_right A B none i h

lemma frag_frame_cs0 (a2 a3 a4 a5 : Frag) (t l1 : Nat) (p : List Nat) (c0 c1 : Nat) :
    frag (frameFrags a2 a3 a4 a5 t l1 p c0 c1) (9 + p.length) = some c0 := by
  unfold frameFrags
  rw [List.append_assoc,
    frag_append_right [some 0xEF, some 0x01, a2, a3, a4, a5, some t, some 0, some l1] _ _
      (by simp)]
  have e1 : 9 + p.length -
      ([some 0xEF, some 0x01, a2, a3, a4, a5, some t, some 0, some l1] : List Frag).length =
      p.length := by simp
  rw [e1, frag_append_right (p.map some) _ _ (by simp)]
  simp [frag]

lemma frag_frame_cs1 (a2 a3 a4 a5 : Frag) (t l1 : Nat) (p : List Nat) (c0 c1 : Nat) :
    frag (frameFrags a2 a3 a4 a5 t l1 p c0 c1) (10 + p.length) = some c1 := by
  unfold frameFrags
  rw [List.append_assoc,
    frag_append_right [some 0xEF, some 0x01, a2, a3, a4, a5, some t, some 0, some l1] _ _
      (by simp only [List.length_cons, List.length_nil]; omega)]
  have e1 : 10 + p.length -
      ([some 0xEF, some 0x01, a2, a3, a4, a5, some t, some 0, some l1] : List Frag).length =
      p.length + 1 := by simp; omega
  rw [e1, frag_append_right (p.map some) _ _ (by simp)]
  have e2 : p.length + 1 - (p.map some).length = 1 := by simp
  rw [e2]
  rfl

lemma map_frag_range (p : List Nat) : ∀ (pre suf : List Frag),
    (List.range' pre.length p.length).map (frag (pre ++ p.map some ++ suf)) = p.map some := by
  induction p with
  | nil => intro pre suf; simp
  | cons x xs ih =>
    intro pre suf
    simp only [List.map_cons, List.length_cons, List.range'_succ]
    have h1 : frag (pre ++ (some x :: xs.map some) ++ suf) pre.length = some x := by
      rw [List.append_assoc, frag_append_right pre _ _ (le_refl _)]
      simp [frag]
    have h2 : (List.range' (pre.length + 1) xs.length).map
        (frag (pre ++ (some x :: xs.map some) ++ suf)) = xs.map some := by
      have e : pre ++ (some x :: xs.map some) ++ suf =
          (pre ++ [some x]) ++ xs.map some ++ suf := by simp
      have h := ih (pre ++ [some x]) suf
      rw [List.length_append] at h
      rw [e]
      simpa using h
    rw [h1, h2]

lemma map_frag_frame (a2 a3 a4 a5 : Frag) (t l1 : Nat) (p : List Nat) (c0 c1 : Nat) :
    (List.range' 9 p.length).map (frag (frameFrags a2 a3 a4 a5 t l1 p c0 c1)) = p.map some := by
  have h := map_frag_range p
    [some 0xEF, some 0x01, a2, a3, a4, a5, some t, some 0, some l1] [some c0, some c1]
  simpa [frameFrags] using h

lemma foldl_py_add (p : List Nat) : ∀ (a : Nat),
    (p.map some).foldl py_add (Except.ok (some a)) = Except.ok (some (a + p.sum)) := by
  induction p with
  | nil => intro a; simp
  | cons x xs ih =>
    intro a
    rw [List.map_cons, List.foldl_cons]
    have h0 : py_add (Except.ok (some a)) (some x) = Except.ok (some (a + x)) := rfl
    rw [h0, ih (a + x)]
    have : a + x + xs.sum = a + (x :: xs).sum := by simp; omega
    rw [this]

lemma read_data_loop_run (s : List Frag) (plen : Nat)
    (hh : check_packet_header s = true)
    (hp : shift_or (frag s 7) (frag s 8) = .ok plen)
    (h12 : 12 ≤ plen + 9) :
    ∀ fuel counter, counter < plen + 9 → plen + 9 ≤ counter + fuel →
      read_data_loop s counter fuel = parse_packet s (plen + 9) plen := by
  intro fuel
  induction fuel with
  | zero => intro counter hlt hle; omega
  | succ f ih =>
    intro counter hlt hle
    by_cases hc : counter + 1 < 12
    · have hrec : read_data_loop s counter (f + 1) = read_data_loop s (counter + 1) f := by
        simp [read_data_loop, hc]
      rw [hrec]
      exact ih (counter + 1) (by omega) (by omega)
    · by_cases hc2 : counter + 1 < plen + 9
      · have hrec : read_data_loop s counter (f + 1) = read_data_loop s (counter + 1) f := by
          simp [read_data_loop, hc, hh, hp, hc2]
        rw [hrec]
        exact ih (counter + 1) (by omega) (by omega)
      · have hceq : counter + 1 = plen + 9 := by omega
        have hrec : read_data_loop s counter (f + 1) = parse_packet s (counter + 1) plen := by
          simp [read_data_loop, hc, hh, hp, hc2]
        rw [hrec, hceq]

/-- Behaviour of `_read_data` on any completely received frame whose two
length bytes are `0` and `p.length + 2`: the packet is accepted with its
payload exactly when the `or`-combined trailing checksum bytes equal the
recomputed checksum sum, and rejected as corrupted otherwise.  The four
address fragments are irrelevant (the decoder never reads them). -/
theorem read_data_frame (a2 a3 a4 a5 : Frag) (t l1 c0 c1 : Nat) (p : List Nat)
    (h1 : 1 ≤ p.length) (h2 : l1 = p.length + 2) :
    read_data (frameFrags a2 a3 a4 a5 t l1 p c0 c1) (p.length + 11) =
      if py_or (shift_left c0 8) (shift_left c1 0) = t + 0 + l1 + p.sum
      then ReadResult.ok (some t) (p.map some)
      else ReadResult.corruptedPacket := by
  set s := frameFrags a2 a3 a4 a5 t l1 p c0 c1 with hs
  have hh : check_packet_header s = true := by
    rw [hs, check_packet_header, frag_frame_zero, frag_frame_one]
    decide
  have hp : shift_or (frag s 7) (frag s 8) = .ok l1 := by
    rw [hs, frag_frame_seven, frag_frame_eight]
    simp [shift_or, shift_left]
  have h12 : 12 ≤ l1 + 9 := by omega
  have hloop := read_data_loop_run s l1 hh hp h12 (p.length + 11) 0 (by omega) (by omega)
  rw [read_data, hloop]
  simp only [parse_packet]
  have hplen2 : l1 - 2 = p.length := by omega
  rw [hplen2]
  have hcs0 : frag s (l1 + 9 - 2) = some c0 := by
    have : l1 + 9 - 2 = 9 + p.length := by omega
    rw [this, hs]; exact frag_frame_cs0 _ _ _ _ _ _ _ _ _
  have hcs1 : frag s (l1 + 9 - 1) = some c1 := by
    have : l1 + 9 - 1 = 10 + p.length := by omega
    rw [this, hs]; exact frag_frame_cs1 _ _ _ _ _ _ _ _ _
  have hinit : py_add (py_add (Except.ok (frag s 6)) (frag s 7)) (frag s 8) =
      Except.ok (some (t + 0 + l1)) := by
    rw [hs, frag_frame_six, frag_frame_seven, frag_frame_eight]; rfl
  have hmapped : (List.range' 9 p.length).map (frag s) = p.map some := by
    rw [hs]; exact map_frag_frame _ _ _ _ _ _ _ _ _
  have hfold : (List.range' 9 p.length).foldl (fun acc i => py_add acc (frag s i))
      (py_add (py_add (Except.ok (frag s 6)) (frag s 7)) (frag s 8)) =
      Except.ok (some (t + 0 + l1 + p.sum)) := by
    rw [hinit, ← List.foldl_map (frag s) py_add, hmapped, foldl_py_add]
  rw [hfold, hcs0, hcs1, shift_or_some]
  have hdt : frag s 6 = some t := by rw [hs]; exact frag_frame_six _ _ _ _ _ _ _ _ _
  rw [hdt, hmapped]
  by_cases hRS : py_or (shift_left c0 8) (shift_left c1 0) = t + 0 + l1 + p.sum <;>
    simp [py_ne, hRS]

lemma set_append_mid {α : Type} (A p B : List α) (j : Nat) (v : α) (h : j < p.length) :
    (A ++ p ++ B).set (A.length + j) v = A ++ p.set j v ++ B := by
  rw [List.set_append, if_pos (by rw [List.length_append]; omega)]
  rw [List.set_append, if_neg (by omega)]
  have e : A.length + j - A.length = j := by omega
  rw [e]

lemma frame_set_payload (a2 a3 a4 a5 : Frag) (t l1 : Nat) (p : List Nat) (c0 c1 : Nat)
    (i v : Nat) (h : i < p.length) :
    (frameFrags a2 a3 a4 a5 t l1 p c0 c1).set (9 + i) (some v) =
      frameFrags a2 a3 a4 a5 t l1 (p.set i v) c0 c1 := by
  unfold frameFrags
  have h2 := set_append_mid
    [some 0xEF, some 0x01, a2, a3, a4, a5, some t, some 0, some l1]
    (p.map some) [some c0, some c1] i (some v) (by simpa using h)
  rw [show (9 + i) =
    ([some 0xEF, some 0x01, a2, a3, a4, a5, some t, some 0, some l1] : List Frag).length + i
    from rfl]
  rw [h2, List.map_set]

lemma frame_set_addr (a2 a3 a4 a5 b : Frag) (t l1 : Nat) (p : List Nat) (c0 c1 : Nat) :
    ((frameFrags a2 a3 a4 a5 t l1 p c0 c1).set 2 b = frameFrags b a3 a4 a5 t l1 p c0 c1) ∧
    ((frameFrags a2 a3 a4 a5 t l1 p c0 c1).set 3 b = frameFrags a2 b a4 a5 t l1 p c0 c1) ∧
    ((frameFrags a2 a3 a4 a5 t l1 p c0 c1).set 4 b = frameFrags a2 a3 b a5 t l1 p c0 c1) ∧
    ((frameFrags a2 a3 a4 a5 t l1 p c0 c1).set 5 b = frameFrags a2 a3 a4 b t l1 p c0 c1) :=
  ⟨rfl, rfl, rfl, rfl⟩

lemma sum_set_getD (p : List Nat) : ∀ (i v : Nat), i < p.length →
    (p.set i v).sum + p.getD i 0 = p.sum + v := by
  induction p with
  | nil => intro i v h; simp at h
  | cons x xs ih =>
    intro i v h
    cases i with
    | zero => simp [List.set]; omega
    | succ j =>
      have hj : j < xs.length := by simpa using h
      have := ih j v hj
      simp only [List.set, List.sum_cons, List.getD_cons_succ]
      omega

lemma xor_flip_ne (x m : Nat) (hm : m ≠ 0) : x ^^^ m ≠ x := by
  intro h
  have h2 : x ^^^ (x ^^^ m) = x ^^^ x := by rw [h]
  rw [← Nat.xor_assoc, Nat.xor_self, Nat.zero_xor] at h2
  exact hm h2

lemma py_or_low (n : Nat) : py_or (shift_left 0 8) (shift_left n 0) = n := by
  simp [py_or, shift_left, Nat.zero_shiftLeft, Nat.shiftLeft_zero]

lemma toFrags_frame (w2 w3 w4 w5 t h0 u8 u0 : Nat) (q : List Nat) :
    toFrags ([0xEF, 0x01, w2, w3, w4, w5, t, 0, h0] ++ q ++ [u8, u0]) =
      frameFrags (some w2) (some w3) (some w4) (some w5) t h0 q u8 u0 := by
  simp [toFrags, frameFrags]

/-- The byte stream `_send_data` emits, viewed as fragments, for a payload of
at most 253 bytes whose checksum sum stays below 256: start bytes, address
bytes, type, length bytes `0` and `p.length + 2`, the payload, and checksum
bytes `0` and the full sum. -/
lemma toFrags_send_data (address data_type : Nat) (p : List Nat)
    (hlen2 : p.length ≤ 253)
    (hsum : data_type + (p.length + 2) + p.sum < 256) :
    toFrags (send_data address data_type p) =
      frameFrags (some (shift_right address 24)) (some (shift_right address 16))
        (some (shift_right address 8)) (some (shift_right address 0))
        data_type (p.length + 2) p 0 (data_type + 0 + (p.length + 2) + p.sum) := by
  have h256 : (2 : Nat) ^ 8 = 256 := by norm_num
  have hl8 : shift_right (p.length + 2) 8 = 0 := by
    unfold shift_right
    rw [Nat.shiftRight_eq_div_pow, h256, Nat.div_eq_of_lt (by omega)]
  have hl0 : shift_right (p.length + 2) 0 = p.length + 2 := by
    unfold shift_right
    rw [Nat.shiftRight_zero]
    exact Nat.mod_eq_of_lt (by omega)
  have hc0 : shift_right (data_type + 0 + (p.length + 2) + p.sum) 8 = 0 := by
    unfold shift_right
    rw [Nat.shiftRight_eq_div_pow, h256, Nat.div_eq_of_lt (by omega)]
  have hc1 : shift_right (data_type + 0 + (p.length + 2) + p.sum) 0 =
      data_type + 0 + (p.length + 2) + p.sum := by
    unfold shift_right
    rw [Nat.shiftRight_zero]
    exact Nat.mod_eq_of_lt (by omega)
  have hef : shift_right 0xEF01 8 = 0xEF := by decide
  have h01 : shift_right 0xEF01 0 = 0x01 := by decide
  simp only [send_data]
  rw [hef, h01, hl8, hl0, hc0, hc1]
  exact toFrags_frame _ _ _ _ _ _ _ _ _

/-- Claim C1 (amended).  Round trip of the codec: for every packet type,
device address and non-empty payload of at most 253 bytes whose checksum
sum stays below 256, feeding the exact byte sequence `_send_data` writes
into `_read_data` returns the same packet type and payload, with no
framing or corruption fault. -/
theorem c1_roundtrip (address data_type : Nat) (p : List Nat)
    (hlen1 : 1 ≤ p.length) (hlen2 : p.length ≤ 253)
    (hbytes : ∀ b ∈ p, b < 256) (ht : data_type < 256)
    (hsum : data_type + (p.length + 2) + p.sum < 256) :
    read_data (toFrags (send_data address data_type p)) (p.length + 11) =
      ReadResult.ok (some data_type) (p.map some) := by
  rw [toFrags_send_data address data_type p hlen2 hsum,
    read_data_frame _ _ _ _ _ _ _ _ _ hlen1 rfl,
    py_or_low, if_pos rfl]

/-- Claim C1, counterexample to the unamended statement: the valid frame for
payload `[255, 255]` (checksum sum `515`, both checksum bytes nonzero) is
rejected by `_read_data` as a corrupted packet, because the decoder
recombines the two checksum bytes with Python `or` instead of addition. -/
theorem c1_counterexample :
    read_data (toFrags (send_data 0xFFFFFFFF 0x01 [255, 255])) 20 =
      ReadResult.corruptedPacket := by decide

/-- Witness for the amended claim C1 at a concrete input. -/
theorem c1_witness :
    (1 ≤ ([1] : List Nat).length ∧ ([1] : List Nat).length ≤ 253 ∧
      (∀ b ∈ ([1] : List Nat), b < 256) ∧ (1 : Nat) < 256 ∧
      1 + (([1] : List Nat).length + 2) + ([1] : List Nat).sum < 256) ∧
    read_data (toFrags (send_data 0xFFFFFFFF 1 [1])) (([1] : List Nat).length + 11) =
      ReadResult.ok (some 1) (([1] : List Nat).map some) :=
  ⟨⟨by decide, by decide, by decide, by decide, by decide⟩,
    c1_roundtrip 0xFFFFFFFF 1 [1] (by decide) (by decide) (by decide) (by decide) (by decide)⟩

/-- Claim C3 (amended).  Checksum sensitivity: for a frame whose checksum sum
stays below 256, flipping any single bit `k` of any payload byte `i` (stream
position `9 + i`), with the trailing checksum bytes left unmodified, makes
`_read_data` reject the frame as a corrupted packet. -/
theorem c3_flip_detected (address data_type : Nat) (p : List Nat) (i k : Nat)
    (hlen1 : 1 ≤ p.length) (hlen2 : p.length ≤ 253)
    (hbytes : ∀ b ∈ p, b < 256) (ht : data_type < 256) (hk : k < 8)
    (hi : i < p.length)
    (hsum : data_type + (p.length + 2) + p.sum < 256) :
    read_data ((toFrags (send_data address data_type p)).set (9 + i)
        (some (p.getD i 0 ^^^ shift_left 1 k))) (p.length + 11) =
      ReadResult.corruptedPacket := by
  rw [toFrags_send_data address data_type p hlen2 hsum,
    frame_set_payload _ _ _ _ _ _ _ _ _ _ _ hi]
  set q := p.set i (p.getD i 0 ^^^ shift_left 1 k) with hq
  have hqlen : q.length = p.length := by rw [hq]; exact List.length_set p i _
  rw [← hqlen]
  rw [read_data_frame _ _ _ _ _ _ _ _ _ (by rw [hqlen]; exact hlen1) rfl, py_or_low]
  have hx : q.sum + p.getD i 0 = p.sum + (p.getD i 0 ^^^ shift_left 1 k) := by
    rw [hq]; exact sum_set_getD p i _ hi
  have hm : shift_left 1 k ≠ 0 := by
    unfold shift_left
    rw [Nat.one_shiftLeft]
    have := Nat.two_pow_pos k
    omega
  have hxs : p.getD i 0 ^^^ shift_left 1 k ≠ p.getD i 0 := xor_flip_ne _ _ hm
  have hne : data_type + 0 + (q.length + 2) + p.sum ≠
      data_type + 0 + (q.length + 2) + q.sum := by
    intro hEq
    exact hxs (by omega)
  rw [if_neg hne]

/-- Claim C3, counterexample to the unamended statement: the frame for
payload `[255, 0]` has checksum sum `260`; flipping bit `2` of the first
payload byte (`255` becomes `251`) lowers the recomputed sum to `256`,
which is exactly what the `or`-combination of the unmodified checksum bytes
yields, so `_read_data` accepts the corrupted frame instead of raising
`CorruptedPacket`. -/
theorem c3_counterexample :
    read_data ((toFrags (send_data 0xFFFFFFFF 0x01 [255, 0])).set 9
        (some ((255 : Nat) ^^^ shift_left 1 2))) 20 =
      ReadResult.ok (some 0x01) [some 251, some 0] ∧
    read_data ((toFrags (send_data 0xFFFFFFFF 0x01 [255, 0])).set 9
        (some ((255 : Nat) ^^^ shift_left 1 2))) 20 ≠
      ReadResult.corruptedPacket := by
  constructor
  · decide
  · decide

/-- Witness for the amended claim C3 at a concrete input. -/
theorem c3_witness :
    (1 ≤ ([1] : List Nat).length ∧ ([1] : List Nat).length ≤ 253 ∧
      (∀ b ∈ ([1] : List Nat), b < 256) ∧ (1 : Nat) < 256 ∧ (0 : Nat) < 8 ∧
      (0 : Nat) < ([1] : List Nat).length ∧
      1 + (([1] : List Nat).length + 2) + ([1] : List Nat).sum < 256) ∧
    read_data ((toFrags (send_data 0xFFFFFFFF 1 [1])).set (9 + 0)
        (some (([1] : List Nat).getD 0 0 ^^^ shift_left 1 0))) (([1] : List Nat).length + 11) =
      ReadResult.corruptedPacket :=
  ⟨⟨by decide, by decide, by decide, by decide, by decide, by decide, by decide⟩,
    c3_flip_detected 0xFFFFFFFF 1 [1] 0 0 (by decide) (by decide) (by decide) (by decide)
      (by decide) (by decide) (by decide)⟩

/-- Claim C9 (amended).  A zero-byte read is recorded as an empty-fragment
sentinel occupying one position of the received stream, and the decoder
keeps consuming the stream past it; when the sentinel sits at one of the
four address positions (2–5), which `_read_data` never consults, decoding
completes normally with the frame's type and payload. -/
theorem c9_sentinel_tolerated (address data_type j : Nat) (p : List Nat)
    (hj2 : 2 ≤ j) (hj5 : j ≤ 5)
    (hlen1 : 1 ≤ p.length) (hlen2 : p.length ≤ 253)
    (hbytes : ∀ b ∈ p, b < 256) (ht : data_type < 256)
    (hsum : data_type + (p.length + 2) + p.sum < 256) :
    read_data ((toFrags (send_data address data_type p)).set j none) (p.length + 11) =
      ReadResult.ok (some data_type) (p.map some) := by
  rw [toFrags_send_data address data_type p hlen2 hsum]
  interval_cases j
  · rw [(frame_set_addr _ _ _ _ none _ _ _ _ _).1,
      read_data_frame _ _ _ _ _ _ _ _ _ hlen1 rfl, py_or_low, if_pos rfl]
  · rw [(frame_set_addr _ _ _ _ none _ _ _ _ _).2.1,
      read_data_frame _ _ _ _ _ _ _ _ _ hlen1 rfl, py_or_low, if_pos rfl]
  · rw [(frame_set_addr _ _ _ _ none _ _ _ _ _).2.2.1,
      read_data_frame _ _ _ _ _ _ _ _ _ hlen1 rfl, py_or_low, if_pos rfl]
  · rw [(frame_set_addr _ _ _ _ none _ _ _ _ _).2.2.2,
      read_data_frame _ _ _ _ _ _ _ _ _ hlen1 rfl, py_or_low, if_pos rfl]

/-- Claim C9, counterexample to the unamended statement: a zero-byte read at
stream position 7 (the high length byte) leaves the empty sentinel where
the decoder computes `received_data[7] << 8`, and Python raises `TypeError`
— a crash, not one of the declared framing/corruption faults. -/
theorem c9_counterexample :
    read_data ((toFrags (send_data 0xFFFFFFFF 0x07 [0])).set 7 none) 20 =
      ReadResult.typeFault := by decide

/-- Witness for the amended claim C9 at a concrete input. -/
theorem c9_witness :
    ((2 : Nat) ≤ 3 ∧ (3 : Nat) ≤ 5 ∧ 1 ≤ ([0] : List Nat).length ∧
      ([0] : List Nat).length ≤ 253 ∧ (∀ b ∈ ([0] : List Nat), b < 256) ∧
      (7 : Nat) < 256 ∧ 7 + (([0] : List Nat).length + 2) + ([0] : List Nat).sum < 256) ∧
    read_data ((toFrags (send_data 0xFFFFFFFF 7 [0])).set 3 none) (([0] : List Nat).length + 11) =
      ReadResult.ok (some 7) (([0] : List Nat).map some) :=
  ⟨⟨by decide, by decide, by decide, by decide, by decide, by decide, by decide⟩,
    c9_sentinel_tolerated 0xFFFFFFFF 7 3 [0] (by decide) (by decide) (by decide) (by decide)
      (by decide) (by decide) (by decide)⟩

/-- Claim C2 (amended).  The multi-byte result fields of the search-template
and count-templates ACKs are reconstructed as `high << 8` when the high
byte is nonzero and as the low byte otherwise (Python `or`, not addition);
this coincides with the big-endian value `high * 256 + low` exactly when
one of the two bytes is zero. -/
theorem c2_or_reconstruction (hi lo p3 p4 : Nat) (rest : List Nat) :
    (search_template_result (0 :: hi :: lo :: p3 :: p4 :: rest)).1 =
      (if hi = 0 then lo else shift_left hi 8) ∧
    (search_template_result (0 :: hi :: lo :: p3 :: p4 :: rest)).2 =
      (if p3 = 0 then p4 else shift_left p3 8) ∧
    count_fingers_result (0 :: hi :: lo :: rest) =
      (if hi = 0 then lo else shift_left hi 8) ∧
    ((if hi = 0 then lo else shift_left hi 8) = hi * 256 + lo ↔ (hi = 0 ∨ lo = 0)) := by
  have hsl : ∀ n : Nat, shift_left n 8 = n * 256 := by
    intro n
    unfold shift_left
    rw [Nat.shiftLeft_eq]
  have hsl0 : ∀ n : Nat, shift_left n 0 = n := fun n => Nat.shiftLeft_zero
  refine ⟨?_, ?_, ?_, ?_⟩
  · by_cases h : hi = 0 <;>
      simp [search_template_result, py_or, hsl, hsl0, h]
  · by_cases h : p3 = 0 <;>
      simp [search_template_result, py_or, hsl, hsl0, h]
  · by_cases h : hi = 0 <;>
      simp [count_fingers_result, py_or, hsl, hsl0, h]
  · by_cases h : hi = 0
    · simp [h]
    · rw [if_neg h, hsl]
      constructor
      · intro he
        right
        omega
      · intro he
        rcases he with he | he
        · exact absurd he h
        · omega

/-- Claim C2, counterexample to the unamended statement: an ACK payload with
high byte 1 and low byte 2 yields `256` from the decoder's `or`-combination,
not the big-endian value `1 * 256 + 2 = 258`, for the search-template
position and score and for the template count alike. -/
theorem c2_counterexample :
    search_template_result [0, 1, 2, 1, 2] ≠ (1 * 256 + 2, 1 * 256 + 2) ∧
    count_fingers_result [0, 1, 2] ≠ 1 * 256 + 2 := by decide

/-- Claim C7.  Cancellation precedence: when the `kill_read_finger` flag is
set and a scan reports no finger, the detection loop reports `KillSignal` —
for every timeout value, including timeouts that have already elapsed —
clears the flag, frees the sensor and refreshes the count before raising. -/
theorem c7_kill_precedence (timeout : Option Nat) (f : Nat) (st : MState) (c : Nat)
    (hkill : st.kill = true)
    (hscan : FingerReader.scan_ack (st.responses st.now) = .error .noFingerFound)
    (hcount : FingerReader.count_fingers_ack (st.responses (st.now + 1)) = .ok c) :
    (FingerReader.read timeout (f + 1) st).1 = some (.error .killSignal) ∧
    (FingerReader.read timeout (f + 1) st).2.kill = false ∧
    (FingerReader.read timeout (f + 1) st).2.trace =
      st.trace ++ [Ev.setStatus .BUSY, Ev.cmd 0x01, Ev.setStatus .FREE, Ev.cmd 0x1D] := by
  simp [FingerReader.read, FingerReader.read_loop, FingerReader.scan, FingerReader.exchange,
    FingerReader.set_status, FingerReader.count_fingers, hscan, hkill, hcount]

/-- Witness for claim C7 at a concrete input, with a timeout of 1 already
elapsed when the no-finger response is processed. -/
theorem c7_witness :
    (stC7.kill = true ∧
      FingerReader.scan_ack (stC7.responses stC7.now) = .error .noFingerFound ∧
      FingerReader.count_fingers_ack (stC7.responses (stC7.now + 1)) = .ok 3) ∧
    (FingerReader.read (some 1) 2 stC7).1 = some (.error .killSignal) ∧
    (FingerReader.read (some 1) 2 stC7).2.kill = false ∧
    (FingerReader.read (some 1) 2 stC7).2.trace =
      stC7.trace ++ [Ev.setStatus .BUSY, Ev.cmd 0x01, Ev.setStatus .FREE, Ev.cmd 0x1D] :=
  ⟨⟨rfl, rfl, rfl⟩,
    c7_kill_precedence (some 1) 1 stC7 3 rfl rfl rfl⟩

lemma read_loop_timeout_zero (fuel : Nat) : ∀ (start : Nat) (st : MState),
    FingerReader.read_loop (some 0) start fuel st = FingerReader.read_loop none start fuel st := by
  induction fuel with
  | zero => intro start st; rfl
  | succ f ih =>
    intro start st
    simp only [FingerReader.read_loop]
    rcases hack : FingerReader.scan_ack (st.responses st.now) with e | u
    · simp only [FingerReader.scan, FingerReader.exchange, hack]
      by_cases he : e = PyExc.noFingerFound
      · subst he
        simp [FingerReader.timeout_hit, ih]
      · simp [he]
    · simp only [FingerReader.scan, FingerReader.exchange, hack]

lemma read_loop_never_exit (fuel : Nat) : ∀ (start : Nat) (st : MState),
    st.kill = false →
    (∀ n, FingerReader.scan_ack (st.responses n) = .error .noFingerFound) →
    (FingerReader.read_loop (some 0) start fuel st).1 = none := by
  induction fuel with
  | zero => intro start st _ _; rfl
  | succ f ih =>
    intro start st hkill hscan
    simp only [FingerReader.read_loop, FingerReader.scan, FingerReader.exchange, hscan]
    simp [hkill, FingerReader.timeout_hit]
    exact ih start _ rfl hscan

/-- Claim C10.  A zero timeout is treated exactly like no timeout: the check
`timeout and elapsed >= timeout` is never true for the falsy `0`, so
`read(timeout=0)` behaves identically to `read(timeout=None)`, and against
a device that always reports no finger (kill flag unset) the detection
loop never exits, for any number of iterations. -/
theorem c10_zero_timeout (fuel : Nat) (st : MState)
    (hkill : st.kill = false)
    (hscan : ∀ n, FingerReader.scan_ack (st.responses n) = .error .noFingerFound) :
    FingerReader.read (some 0) fuel st = FingerReader.read none fuel st ∧
    (FingerReader.read (some 0) fuel st).1 = none := by
  constructor
  · exact read_loop_timeout_zero fuel _ _
  · exact read_loop_never_exit fuel _ _ hkill hscan

/-- Witness for claim C10 at a concrete input. -/
theorem c10_witness :
    (stNoFinger.kill = false ∧
      (∀ n, FingerReader.scan_ack (stNoFinger.responses n) = .error .noFingerFound)) ∧
    FingerReader.read (some 0) 4 stNoFinger = FingerReader.read none 4 stNoFinger ∧
    (FingerReader.read (some 0) 4 stNoFinger).1 = none :=
  ⟨⟨rfl, fun n => rfl⟩,
    c10_zero_timeout 4 stNoFinger rfl (fun n => rfl)⟩

/-- Claim C8.  The `except NoAvailablePositionFound` clause of
`_store_finger` catches the exception and only logs it, so the method
returns Python `None` — a silent non-result — instead of re-raising it to
`register`'s caller, contradicting the `Raises: NoAvailablePositionFound`
docstrings of both `register` and `_store_finger`. -/
theorem c8_swallowed_silently (st : MState) :
    FingerReader.store_finger_except PyExc.noAvailablePositionFound st =
      (some (Except.ok none), st) := by
  simp [FingerReader.store_finger_except]

/-- Claim C5.  Enroll duplicate guard: when the verify step succeeds (first
scan finds a finger, buffering succeeds, and the search exchange reports a
match), `register` raises `FingerExists`, and the run's exchanges are
exactly scan (0x01), buffer (0x02) and search (0x04) — never a
create-template (0x05) or store-template (0x06) exchange. -/
theorem c5_duplicate_guard (position timeout : Option Nat) (f : Nat) (st : MState)
    (pos score : Nat)
    (hfree : st.status = SensorStatus.FREE)
    (hscan : FingerReader.scan_ack (st.responses st.now) = .ok ())
    (hbuf : FingerReader.buffer_image_ack (st.responses (st.now + 1)) = .ok ())
    (hsearch : FingerReader.search_template_ack (st.responses (st.now + 2)) =
      .ok (pos, score)) :
    (FingerReader.register position timeout (f + 1) st).1 =
      some (.error .fingerExists) ∧
    (FingerReader.register position timeout (f + 1) st).2.trace =
      st.trace ++ [Ev.setStatus .BUSY, Ev.cmd 0x01, Ev.setStatus .FREE,
        Ev.cmd 0x02, Ev.cmd 0x04] ∧
    Ev.cmd 0x05 ∉ [Ev.setStatus SensorStatus.BUSY, Ev.cmd 0x01,
      Ev.setStatus SensorStatus.FREE, Ev.cmd 0x02, Ev.cmd 0x04] ∧
    Ev.cmd 0x06 ∉ [Ev.setStatus SensorStatus.BUSY, Ev.cmd 0x01,
      Ev.setStatus SensorStatus.FREE, Ev.cmd 0x02, Ev.cmd 0x04] := by
  refine ⟨?_, ?_, by decide, by decide⟩ <;>
    simp [FingerReader.register, FingerReader.check_finger, FingerReader.read,
      FingerReader.read_loop, FingerReader.scan, FingerReader.buffer_image,
      FingerReader.search_template, FingerReader.exchange, FingerReader.set_status,
      hfree, hscan, hbuf, hsearch]

/-- Witness for claim C5 at a concrete input. -/
theorem c5_witness :
    (stC5.status = SensorStatus.FREE ∧
      FingerReader.scan_ack (stC5.responses stC5.now) = .ok () ∧
      FingerReader.buffer_image_ack (stC5.responses (stC5.now + 1)) = .ok () ∧
      FingerReader.search_template_ack (stC5.responses (stC5.now + 2)) = .ok (1, 2)) ∧
    (FingerReader.register none (some 5) (0 + 1) stC5).1 = some (.error .fingerExists) ∧
    (FingerReader.register none (some 5) (0 + 1) stC5).2.trace =
      stC5.trace ++ [Ev.setStatus .BUSY, Ev.cmd 0x01, Ev.setStatus .FREE,
        Ev.cmd 0x02, Ev.cmd 0x04] ∧
    Ev.cmd 0x05 ∉ [Ev.setStatus SensorStatus.BUSY, Ev.cmd 0x01,
      Ev.setStatus SensorStatus.FREE, Ev.cmd 0x02, Ev.cmd 0x04] ∧
    Ev.cmd 0x06 ∉ [Ev.setStatus SensorStatus.BUSY, Ev.cmd 0x01,
      Ev.setStatus SensorStatus.FREE, Ev.cmd 0x02, Ev.cmd 0x04] :=
  ⟨⟨rfl, rfl, rfl, rfl⟩,
    c5_duplicate_guard none (some 5) 0 stC5 1 2 rfl rfl rfl rfl⟩

lemma read_loop_all_noFinger (T start : Nat) :
    ∀ (fuel : Nat) (st : MState) (c : Nat),
      1 ≤ T →
      st.kill = false →
      (∀ n, n < start + T → FingerReader.scan_ack (st.responses n) = .error .noFingerFound) →
      FingerReader.count_fingers_ack (st.responses (start + T)) = .ok c →
      start ≤ st.now → st.now < start + T →
      start + T - st.now ≤ fuel →
      (FingerReader.read_loop (some T) start fuel st).1 = some (.error .noFingerFound) ∧
      (FingerReader.read_loop (some T) start fuel st).2.now = start + T + 1 := by
  intro fuel
  induction fuel with
  | zero => intro st c hT hkill hscan hcount h4 h5 h6; omega
  | succ f ih =>
    intro st c hT hkill hscan hcount h4 h5 h6
    have hs := hscan st.now h5
    by_cases hlast : start + T ≤ st.now + 1
    · have heq : st.now + 1 = start + T := by omega
      have hhit : FingerReader.timeout_hit (some T) (st.now + 1 - start) = true := by
        simp [FingerReader.timeout_hit]
        omega
      have hc : FingerReader.count_fingers_ack (st.responses (st.now + 1)) = .ok c := by
        rw [heq]; exact hcount
      simp [FingerReader.read_loop, FingerReader.scan, FingerReader.exchange, hs,
        hkill, hhit, FingerReader.count_fingers, FingerReader.set_status, hc]
      omega
    · have hhit : FingerReader.timeout_hit (some T) (st.now + 1 - start) = false := by
        simp [FingerReader.timeout_hit]
        omega
      simp only [FingerReader.read_loop, FingerReader.scan, FingerReader.exchange, hs]
      simp [hkill, hhit]
      exact ih _ c hT rfl hscan hcount (show start ≤ st.now + 1 by omega)
        (show st.now + 1 < start + T by omega) (show start + T - (st.now + 1) ≤ f by omega)

lemma read_eq (timeout : Option Nat) (fuel : Nat) (st : MState) :
    FingerReader.read timeout fuel st =
      FingerReader.read_loop timeout st.now fuel (FingerReader.set_status .BUSY st) := rfl

/-- Claim C6.  Detection-loop timeout termination: against a device whose
scan exchanges all report no finger, with the kill flag unset and a
positive timeout `T`, `read` terminates within `T` loop iterations by
raising `NoFingerFound`, with at least `T` time units elapsed (the model
clock ticks once per exchange). -/
theorem c6_timeout_terminates (T : Nat) (st : MState) (c : Nat)
    (hT : 1 ≤ T) (hkill : st.kill = false)
    (hscan : ∀ n, n < st.now + T →
      FingerReader.scan_ack (st.responses n) = .error .noFingerFound)
    (hcount : FingerReader.count_fingers_ack (st.responses (st.now + T)) = .ok c) :
    (FingerReader.read (some T) T st).1 = some (.error .noFingerFound) ∧
    T ≤ (FingerReader.read (some T) T st).2.now - st.now := by
  have h := read_loop_all_noFinger T st.now T (FingerReader.set_status .BUSY st) c hT
    hkill hscan hcount (le_refl _) (show st.now < st.now + T by omega)
    (show st.now + T - st.now ≤ T by omega)
  rw [read_eq]
  exact ⟨h.1, by rw [h.2]; omega⟩

/-- Witness for claim C6 at a concrete input. -/
theorem c6_witness :
    ((1 : Nat) ≤ 2 ∧ stC6.kill = false ∧
      (∀ n, n < stC6.now + 2 →
        FingerReader.scan_ack (stC6.responses n) = .error .noFingerFound) ∧
      FingerReader.count_fingers_ack (stC6.responses (stC6.now + 2)) = .ok 3) ∧
    (FingerReader.read (some 2) 2 stC6).1 = some (.error .noFingerFound) ∧
    2 ≤ (FingerReader.read (some 2) 2 stC6).2.now - stC6.now :=
  ⟨⟨by decide, rfl, fun n hn => by
      have h2 : n < 2 := hn
      interval_cases n <;> rfl, rfl⟩,
    c6_timeout_terminates 2 stC6 3 (by decide) rfl
      (fun n hn => by
        have h2 : n < 2 := hn
        interval_cases n <;> rfl) rfl⟩

lemma count_fingers_ack_ne_readInputError (r : Nat × List Nat) :
    FingerReader.count_fingers_ack r ≠ Except.error PyExc.readInputError := by
  unfold FingerReader.count_fingers_ack
  split_ifs <;> simp

lemma read_loop_exit_shape :
    ∀ (fuel : Nat) (timeout : Option Nat) (start : Nat) (st : MState)
      (r : Except PyExc Unit) (st2 : MState),
      FingerReader.read_loop timeout start fuel st = (some r, st2) →
      st2.status = SensorStatus.FREE ∧
      ∃ mid tail, st2.trace = st.trace ++ mid ++ Ev.setStatus SensorStatus.FREE :: tail ∧
        Ev.cmd 0x1D ∉ mid ∧
        (tail = [] ∨ tail = [Ev.cmd 0x1D]) ∧
        (r = .ok () → tail = []) ∧
        (r = .error .killSignal → tail = [Ev.cmd 0x1D]) ∧
        (r = .error .noFingerFound → tail = [Ev.cmd 0x1D]) ∧
        (r = .error .readInputError → tail = []) := by
  intro fuel
  induction fuel with
  | zero =>
    intro timeout start st r st2 h
    simp [FingerReader.read_loop] at h
  | succ f ih =>
    intro timeout start st r st2 h
    rcases hack : FingerReader.scan_ack (st.responses st.now) with e | u
    · by_cases he : e = PyExc.noFingerFound
      · subst he
        cases hk : st.kill with
        | true =>
          rcases hcnt : FingerReader.count_fingers_ack (st.responses (st.now + 1)) with e2 | cv
          · simp [FingerReader.read_loop, FingerReader.scan, FingerReader.exchange,
              FingerReader.count_fingers, FingerReader.set_status, hack, hk, hcnt,
              Prod.ext_iff] at h
            obtain ⟨h1, h2⟩ := h
            subst h1
            subst h2
            have hne : e2 ≠ PyExc.readInputError := by
              intro he2
              rw [he2] at hcnt
              exact count_fingers_ack_ne_readInputError _ hcnt
            refine ⟨rfl, [Ev.cmd 0x01], [Ev.cmd 0x1D], by simp, by decide,
              Or.inr rfl, by simp, fun _ => rfl, fun _ => rfl, ?_⟩
            intro hab
            exact absurd (by simpa using hab) hne
          · simp [FingerReader.read_loop, FingerReader.scan, FingerReader.exchange,
              FingerReader.count_fingers, FingerReader.set_status, hack, hk, hcnt,
              Prod.ext_iff] at h
            obtain ⟨h1, h2⟩ := h
            subst h1
            subst h2
            refine ⟨rfl, [Ev.cmd 0x01], [Ev.cmd 0x1D], by simp, by decide,
              Or.inr rfl, by simp, fun _ => rfl, fun _ => rfl, by simp⟩
        | false =>
          by_cases hhit : FingerReader.timeout_hit timeout (st.now + 1 - start) = true
          · rcases hcnt : FingerReader.count_fingers_ack (st.responses (st.now + 1)) with e2 | cv
            · simp [FingerReader.read_loop, FingerReader.scan, FingerReader.exchange,
                FingerReader.count_fingers, FingerReader.set_status, hack, hk, hhit, hcnt,
                Prod.ext_iff] at h
              obtain ⟨h1, h2⟩ := h
              subst h1
              subst h2
              have hne : e2 ≠ PyExc.readInputError := by
                intro he2
                rw [he2] at hcnt
                exact count_fingers_ack_ne_readInputError _ hcnt
              refine ⟨rfl, [Ev.cmd 0x01], [Ev.cmd 0x1D], by simp, by decide,
                Or.inr rfl, by simp, fun _ => rfl, fun _ => rfl, ?_⟩
              intro hab
              exact absurd (by simpa using hab) hne
            · simp [FingerReader.read_loop, FingerReader.scan, FingerReader.exchange,
                FingerReader.count_fingers, FingerReader.set_status, hack, hk, hhit, hcnt,
                Prod.ext_iff] at h
              obtain ⟨h1, h2⟩ := h
              subst h1
              subst h2
              refine ⟨rfl, [Ev.cmd 0x01], [Ev.cmd 0x1D], by simp, by decide,
                Or.inr rfl, by simp, fun _ => rfl, fun _ => rfl, by simp⟩
          · have hhit2 : FingerReader.timeout_hit timeout (st.now + 1 - start) = false := by
              simpa using hhit
            simp only [FingerReader.read_loop, FingerReader.scan, FingerReader.exchange,
              hack] at h
            simp [hk, hhit2] at h
            obtain ⟨hstat, mid, tail, htr, hnot, hopts, himp1, himp2, himp3, himp4⟩ :=
              ih timeout start _ r st2 h
            refine ⟨hstat, Ev.cmd 0x01 :: mid, tail, ?_, ?_, hopts, himp1, himp2, himp3, himp4⟩
            · rw [htr]
              simp
            · simp [hnot]
      · simp [FingerReader.read_loop, FingerReader.scan, FingerReader.exchange,
          FingerReader.set_status, hack, he, Prod.ext_iff] at h
        obtain ⟨h1, h2⟩ := h
        subst h1
        subst h2
        refine ⟨rfl, [Ev.cmd 0x01], [], by simp, by decide, Or.inl rfl,
          fun hab => rfl, ?_, ?_, fun _ => rfl⟩
        · intro hab
          simp at hab
        · intro hab
          simp at hab
    · simp [FingerReader.read_loop, FingerReader.scan, FingerReader.exchange,
        FingerReader.set_status, hack, Prod.ext_iff] at h
      obtain ⟨h1, h2⟩ := h
      subst h1
      subst h2
      refine ⟨rfl, [Ev.cmd 0x01], [], by simp, by decide, Or.inl rfl,
        fun _ => rfl, ?_, ?_, fun _ => rfl⟩
      · intro hab
        simp at hab
      · intro hab
        simp at hab

/-- Claim C4 (amended).  On entry `read` sets the sensor mode to BUSY; on
every terminating exit path the mode is FREE again, set by an exit-path
`set_status(FREE)`.  A count-templates refresh (0x1D) never happens during
the loop body; on the cancellation and timeout exit paths a single refresh
is issued, and it comes after the FREE transition, not before; the
successful exit and the generic-fault (`ReadInputError`) exit end
immediately after the FREE transition with no refresh at all. -/
theorem c4_read_exit (timeout : Option Nat) (fuel : Nat) (st : MState)
    (r : Except PyExc Unit) (st2 : MState)
    (h : FingerReader.read timeout fuel st = (some r, st2)) :
    st2.status = SensorStatus.FREE ∧
    ∃ mid tail,
      st2.trace = st.trace ++
        Ev.setStatus SensorStatus.BUSY :: (mid ++ Ev.setStatus SensorStatus.FREE :: tail) ∧
      Ev.cmd 0x1D ∉ mid ∧
      (tail = [] ∨ tail = [Ev.cmd 0x1D]) ∧
      (r = .ok () → tail = []) ∧
      (r = .error .killSignal → tail = [Ev.cmd 0x1D]) ∧
      (r = .error .noFingerFound → tail = [Ev.cmd 0x1D]) ∧
      (r = .error .readInputError → tail = []) := by
  rw [read_eq] at h
  obtain ⟨hstat, mid, tail, htr, hnot, hopts, h1, h2, h3, h4⟩ :=
    read_loop_exit_shape fuel timeout st.now (FingerReader.set_status .BUSY st) r st2 h
  refine ⟨hstat, mid, tail, ?_, hnot, hopts, h1, h2, h3, h4⟩
  rw [htr]
  simp [FingerReader.set_status]

/-- Claim C4, counterexample to the unamended statement: on the success exit
path `read` returns with the mode observable as FREE without having issued
any count-templates (0x1D) exchange at all, so the FREE transition is not
preceded by a fresh count-templates exchange. -/
theorem c4_counterexample :
    (FingerReader.read (some 5) 3 stC4).1 = some (.ok ()) ∧
    (FingerReader.read (some 5) 3 stC4).2.status = SensorStatus.FREE ∧
    (FingerReader.read (some 5) 3 stC4).2.trace =
      [Ev.setStatus .BUSY, Ev.cmd 0x01, Ev.setStatus .FREE] ∧
    Ev.cmd 0x1D ∉ (FingerReader.read (some 5) 3 stC4).2.trace :=
  ⟨rfl, rfl, rfl, by decide⟩

/-- Witness for the amended claim C4 at a concrete input. -/
theorem c4_witness :
    (FingerReader.read (some 5) 3 stC4).2.status = SensorStatus.FREE ∧
    ∃ mid tail,
      (FingerReader.read (some 5) 3 stC4).2.trace = stC4.trace ++
        Ev.setStatus SensorStatus.BUSY :: (mid ++ Ev.setStatus SensorStatus.FREE :: tail) ∧
      Ev.cmd 0x1D ∉ mid ∧
      (tail = [] ∨ tail = [Ev.cmd 0x1D]) ∧
      ((Except.ok () : Except PyExc Unit) = .ok () → tail = []) ∧
      ((Except.ok () : Except PyExc Unit) = .error .killSignal → tail = [Ev.cmd 0x1D]) ∧
      ((Except.ok () : Except PyExc Unit) = .error .noFingerFound → tail = [Ev.cmd 0x1D]) ∧
      ((Except.ok () : Except PyExc Unit) = .error .readInputError → tail = []) :=
  c4_read_exit (some 5) 3 stC4 (.ok ()) ((FingerReader.read (some 5) 3 stC4).2) rfl
